import Mathlib

/-!
Verification development for the realearn realtime control pipeline.

Shallow embedding of:
- `src/main/src/domain/real_time_processor.rs` (time-critical processor)
- `src/main/src/domain/control_surface.rs` (garbage bin / coordination surface)
- `src/main/src/infrastructure/data/osc_device_management.rs`
- `src/main/src/infrastructure/data/mode_model_data.rs`

External crates (helgoboss_midi scanners, helgoboss_learn value types, the
VST host, the file system, JSON parsing) are modelled as opaque state
machines and environment functions; repository code that is present is
translated function by function.
-/

namespace Realearn

/-- The 23 short-message types of helgoboss_midi (external crate), as matched
by `process_incoming_midi`. -/
inductive ShortMessageType where
  | NoteOff
  | NoteOn
  | PolyphonicKeyPressure
  | ControlChange
  | ProgramChange
  | ChannelPressure
  | PitchBendChange
  | Start
  | Continue
  | Stop
  | SystemExclusiveStart
  | TimeCodeQuarterFrame
  | SongPositionPointer
  | SongSelect
  | SystemCommonUndefined1
  | SystemCommonUndefined2
  | TuneRequest
  | SystemExclusiveEnd
  | SystemRealTimeUndefined1
  | SystemRealTimeUndefined2
  | ActiveSensing
  | SystemReset
  | TimingClock
  deriving DecidableEq

/-- A raw 3-byte short MIDI message (helgoboss_midi `RawShortMessage`); the
payload bytes are abstracted into one number, the type is explicit because
the processor dispatches on it. -/
structure RawShortMessage where
  msg_type : ShortMessageType
  payload : Nat
  deriving DecidableEq

/-- Opaque (14-bit) parameter number message produced by the NRPN scanner
(external crate helgoboss_midi). -/
abbrev ParameterNumberMessage := Nat

/-- Opaque 14-bit CC message produced by the 14-bit CC scanner
(external crate helgoboss_midi). -/
abbrev ControlChange14BitMessage := Nat

/-- Opaque learned MIDI source descriptor (helgoboss_learn `MidiSource`). -/
abbrev MidiSource := Nat

/-- helgoboss_learn `MidiSourceValue<RawShortMessage>`: the structured source
values the processor works with. -/
inductive MidiSourceValue where
  | Plain (msg : RawShortMessage)
  | ParameterNumber (msg : ParameterNumberMessage)
  | ControlChange14Bit (msg : ControlChange14BitMessage)
  | Tempo (bpm : Nat)
  deriving DecidableEq

/-- `MidiControlInput` of the domain layer: FX input or a concrete device. -/
inductive MidiControlInput where
  | fx_input
  | device (id : Nat)
  deriving DecidableEq

/-- `MidiFeedbackOutput`: FX output or a concrete device. -/
inductive MidiFeedbackOutput where
  | fx_output
  | device (id : Nat)
  deriving DecidableEq

/-- `ControlState` of the real-time processor (real_time_processor.rs). -/
inductive ControlState where
  | Controlling
  | LearningSource
  deriving DecidableEq

/-- Modelled from the spec: `RealTimeProcessorMapping` (domain/mapping.rs is
not among the provided sources). Per the spec it carries the mapping id, two
mutable activation bits updated in place (mapping-level and target-level),
and exposes `control`/`consumes` queries; the derived
`control_is_effectively_on` is the conjunction of the two bits. The behavior
of `control` and `consumes` is abstracted into function fields. -/
structure RealTimeProcessorMapping where
  id : Nat
  mapping_is_active : Bool
  target_is_active : Bool
  control_fn : MidiSourceValue → Option Nat
  consumes_fn : RawShortMessage → Bool

/-- Modelled from the spec: derived activation flag of a real-time mapping. -/
def RealTimeProcessorMapping.control_is_effectively_on
    (m : RealTimeProcessorMapping) : Bool :=
  m.mapping_is_active && m.target_is_active

/-- Modelled from the spec: in-place update of the mapping-level activation
bit (`update_mapping_activation`). -/
def RealTimeProcessorMapping.update_mapping_activation
    (m : RealTimeProcessorMapping) (is_active : Bool) : RealTimeProcessorMapping :=
  { m with mapping_is_active := is_active }

/-- Modelled from the spec: in-place update of the target-level activation
bit (`update_target_activation`). -/
def RealTimeProcessorMapping.update_target_activation
    (m : RealTimeProcessorMapping) (is_active : Bool) : RealTimeProcessorMapping :=
  { m with target_is_active := is_active }

/-- `MappingActivationUpdate` (domain): a sparse activation delta. -/
structure MappingActivationUpdate where
  id : Nat
  is_active : Bool

/-- Association list with `HashMap`-style insert-replace semantics, modelling
`HashMap<MappingId, RealTimeProcessorMapping>`. -/
def alist_insert {α : Type} : List (Nat × α) → Nat → α → List (Nat × α)
  | [], k, v => [(k, v)]
  | p :: rest, k, v =>
    if p.1 = k then (k, v) :: rest else p :: alist_insert rest k v

/-- `HashMap::contains_key` on the association-list model. -/
def alist_contains {α : Type} : List (Nat × α) → Nat → Bool
  | [], _ => false
  | p :: rest, k => if p.1 = k then true else alist_contains rest k

/-- `HashMap::get` on the association-list model. -/
def alist_get {α : Type} : List (Nat × α) → Nat → Option α
  | [], _ => none
  | p :: rest, k => if p.1 = k then some p.2 else alist_get rest k

/-- `HashMap::get_mut` followed by a mutation, on the association-list
model: update the (first) entry with the given key. -/
def alist_update {α : Type} : List (Nat × α) → Nat → (α → α) → List (Nat × α)
  | [], _, _ => []
  | p :: rest, k, f =>
    if p.1 = k then (p.1, f p.2) :: rest else p :: alist_update rest k f

/-- The `Garbage` enum of control_surface.rs: heap-owning values whose
destruction is deferred to a non-realtime thread. Payloads are opaque. -/
inductive Garbage where
  | RawMidiEvent (e : Nat)
  | RealTimeProcessor (p : Nat)
  | LifecycleMidiData (d : Nat)
  | ResolvedTarget (t : Option Nat)
  | EelTransformation (t : Option Nat)
  | MappingSource (s : Nat)
  | RealTimeMappings (ms : List Nat)
  | BoxedRealTimeMapping (m : Option Nat)
  | ActivationChanges (cs : List Nat)
  deriving DecidableEq

/-- `NormalRealTimeTask` (real_time_processor.rs): the occasional structural
tasks sent from the main thread to the real-time processor. -/
inductive NormalRealTimeTask where
  | UpdateAllMappings (mappings : List RealTimeProcessorMapping)
  | UpdateSingleMapping (mapping : RealTimeProcessorMapping)
  | UpdateSettings (let_matched_events_through : Bool)
      (let_unmatched_events_through : Bool)
      (midi_control_input : MidiControlInput)
      (midi_feedback_output : Option MidiFeedbackOutput)
  | EnableMappingsExclusively (mappings_to_enable : List Nat)
  | UpdateMappingActivations (activation_updates : List MappingActivationUpdate)
  | LogDebugInfo
  | UpdateSampleRate (sample_rate : Nat)
  | StartLearnSource
  | StopLearnSource

/-- `FeedbackRealTimeTask` (real_time_processor.rs). -/
inductive FeedbackRealTimeTask where
  | Feedback (value : MidiSourceValue)

/-- Behavior of the external-crate collaborators of the real-time processor
(helgoboss_midi scanners, helgoboss_learn source scanner, the MIDI clock
calculator). Scanner states are opaque numbers; state 0 is the reset/default
state. -/
structure MidiEnv where
  nrpn_feed : Nat → RawShortMessage → Nat × Option ParameterNumberMessage
  cc14_feed : Nat → RawShortMessage → Nat × Option ControlChange14BitMessage
  source_scanner_feed : Nat → MidiSourceValue → Nat × Option MidiSource
  source_scanner_poll : Nat → Nat × Option MidiSource
  clock_feed : Nat → Nat → Nat × Option Nat
  clock_increase : Nat → Nat → Nat
  clock_update_sample_rate : Nat → Nat → Nat
  nrpn_to_shorts : ParameterNumberMessage → List RawShortMessage
  cc14_to_shorts : ControlChange14BitMessage → List RawShortMessage
  value_to_shorts : MidiSourceValue → List RawShortMessage

/-- State of `RealTimeProcessor` (real_time_processor.rs). Outbound channel
sends and host forwarding are recorded in append-only logs; the
`processed_normal_log` and `fed_to_source_scanner` fields are ghost logs that
record which normal tasks have been applied and which source values have
been fed to the source scanner. `garbage_sent` records any value whose
ownership is transferred into the garbage-disposal channel; the source of
the real-time processor holds no garbage-bin sender and never performs such
a transfer, so no operation of this file appends to it. -/
structure RealTimeProcessor where
  control_state : ControlState
  midi_control_input : MidiControlInput
  midi_feedback_output : Option MidiFeedbackOutput
  mappings : List (Nat × RealTimeProcessorMapping)
  let_matched_events_through : Bool
  let_unmatched_events_through : Bool
  nrpn_scanner : Nat
  cc_14_bit_scanner : Nat
  was_playing_in_last_cycle : Bool
  source_scanner : Nat
  midi_clock_calculator : Nat
  sent_control_main : List (Nat × Nat)
  sent_normal_main : List MidiSource
  forwarded_midi : List RawShortMessage
  device_midi_sent : List RawShortMessage
  fed_to_source_scanner : List MidiSourceValue
  processed_normal_log : List NormalRealTimeTask
  garbage_sent : List (List (Nat × RealTimeProcessorMapping))

/-- `NORMAL_BULK_SIZE` (real_time_processor.rs line 20). -/
def NORMAL_BULK_SIZE : Nat := 100

/-- `FEEDBACK_BULK_SIZE` (real_time_processor.rs line 21). -/
def FEEDBACK_BULK_SIZE : Nat := 100

/-- `forward_midi`: sends the raw bytes to the host output
(`host.process_events`), recorded in the `forwarded_midi` log. -/
def forward_midi (s : RealTimeProcessor) (msg : RawShortMessage) : RealTimeProcessor :=
  { s with forwarded_midi := s.forwarded_midi ++ [msg] }

/-- `process_matched_short`: forward iff the control input is FX input and
`let_matched_events_through` is set. -/
def process_matched_short (s : RealTimeProcessor) (msg : RawShortMessage) : RealTimeProcessor :=
  if s.midi_control_input ≠ MidiControlInput.fx_input then s
  else if !s.let_matched_events_through then s
  else forward_midi s msg

/-- `process_unmatched_short`: forward iff the control input is FX input and
`let_unmatched_events_through` is set. -/
def process_unmatched_short (s : RealTimeProcessor) (msg : RawShortMessage) : RealTimeProcessor :=
  if s.midi_control_input ≠ MidiControlInput.fx_input then s
  else if !s.let_unmatched_events_through then s
  else forward_midi s msg

/-- `is_consumed`: whether any mapping with control effectively on consumes
the message. -/
def is_consumed (s : RealTimeProcessor) (msg : RawShortMessage) : Bool :=
  s.mappings.any fun p => p.2.control_is_effectively_on && p.2.consumes_fn msg

/-- The `Control` tasks produced by one `control` call: one per mapping with
control effectively on whose source matches the value, in table order. -/
def control_hits (mappings : List (Nat × RealTimeProcessorMapping))
    (value : MidiSourceValue) : List (Nat × Nat) :=
  mappings.filterMap fun p =>
    if p.2.control_is_effectively_on then
      (p.2.control_fn value).map fun cv => (p.2.id, cv)
    else none

/-- `control`: iterate the effectively-on mappings, send a
`ControlMainTask::Control` per match, return whether any matched. -/
def control (s : RealTimeProcessor) (value : MidiSourceValue) :
    RealTimeProcessor × Bool :=
  let hits := control_hits s.mappings value
  ({ s with sent_control_main := s.sent_control_main ++ hits }, !hits.isEmpty)

/-- `learn_source`: send `NormalMainTask::LearnSource` to the main thread. -/
def learn_source (s : RealTimeProcessor) (source : MidiSource) : RealTimeProcessor :=
  { s with sent_normal_main := s.sent_normal_main ++ [source] }

/-- `feed_source_scanner`: feed one source value to the source scanner and
report a learned source if one is completed. -/
def feed_source_scanner (env : MidiEnv) (s : RealTimeProcessor)
    (value : MidiSourceValue) : RealTimeProcessor :=
  let r := env.source_scanner_feed s.source_scanner value
  let s1 := { s with
    source_scanner := r.1
    fed_to_source_scanner := s.fed_to_source_scanner ++ [value] }
  match r.2 with
  | some source => learn_source s1 source
  | none => s1

/-- `poll_source_scanner`: poll the source scanner (learning mode only). -/
def poll_source_scanner (env : MidiEnv) (s : RealTimeProcessor) : RealTimeProcessor :=
  let r := env.source_scanner_poll s.source_scanner
  let s1 := { s with source_scanner := r.1 }
  match r.2 with
  | some source => learn_source s1 source
  | none => s1

/-- `process_incoming_midi_normal_nrpn`. -/
def process_incoming_midi_normal_nrpn (env : MidiEnv) (s : RealTimeProcessor)
    (msg : ParameterNumberMessage) : RealTimeProcessor :=
  let value := MidiSourceValue.ParameterNumber msg
  match s.control_state with
  | ControlState.Controlling =>
    let r := control s value
    let s1 := r.1
    let matched := r.2
    if s1.midi_control_input ≠ MidiControlInput.fx_input then s1
    else if (matched && s1.let_matched_events_through)
        || (!matched && s1.let_unmatched_events_through) then
      (env.nrpn_to_shorts msg).foldl forward_midi s1
    else s1
  | ControlState.LearningSource => feed_source_scanner env s value

/-- `process_incoming_midi_normal_cc14`. -/
def process_incoming_midi_normal_cc14 (env : MidiEnv) (s : RealTimeProcessor)
    (msg : ControlChange14BitMessage) : RealTimeProcessor :=
  let value := MidiSourceValue.ControlChange14Bit msg
  match s.control_state with
  | ControlState.Controlling =>
    let r := control s value
    let s1 := r.1
    let matched := r.2
    if s1.midi_control_input ≠ MidiControlInput.fx_input then s1
    else if (matched && s1.let_matched_events_through)
        || (!matched && s1.let_unmatched_events_through) then
      (env.cc14_to_shorts msg).foldl forward_midi s1
    else s1
  | ControlState.LearningSource => feed_source_scanner env s value

/-- `process_incoming_midi_normal_plain`. -/
def process_incoming_midi_normal_plain (env : MidiEnv) (s : RealTimeProcessor)
    (msg : RawShortMessage) : RealTimeProcessor :=
  let value := MidiSourceValue.Plain msg
  match s.control_state with
  | ControlState.Controlling =>
    if is_consumed s msg then s
    else
      let r := control s value
      if r.2 then process_matched_short r.1 msg
      else process_unmatched_short r.1 msg
  | ControlState.LearningSource => feed_source_scanner env s value

/-- `process_incoming_midi_normal`: feed the NRPN and 14-bit-CC scanners
(processing any completed message), then process the plain message. -/
def process_incoming_midi_normal (env : MidiEnv) (s : RealTimeProcessor)
    (msg : RawShortMessage) : RealTimeProcessor :=
  let rn := env.nrpn_feed s.nrpn_scanner msg
  let s1 := { s with nrpn_scanner := rn.1 }
  let s2 := match rn.2 with
    | some nrpn_msg => process_incoming_midi_normal_nrpn env s1 nrpn_msg
    | none => s1
  let rc := env.cc14_feed s2.cc_14_bit_scanner msg
  let s3 := { s2 with cc_14_bit_scanner := rc.1 }
  let s4 := match rc.2 with
    | some cc14_msg => process_incoming_midi_normal_cc14 env s3 cc14_msg
    | none => s3
  process_incoming_midi_normal_plain env s4 msg

/-- `process_incoming_midi`: dispatch on the short-message type. -/
def process_incoming_midi (env : MidiEnv) (s : RealTimeProcessor)
    (frame_offset : Nat) (msg : RawShortMessage) : RealTimeProcessor :=
  match msg.msg_type with
  | ShortMessageType.NoteOff
  | ShortMessageType.NoteOn
  | ShortMessageType.PolyphonicKeyPressure
  | ShortMessageType.ControlChange
  | ShortMessageType.ProgramChange
  | ShortMessageType.ChannelPressure
  | ShortMessageType.PitchBendChange
  | ShortMessageType.Start
  | ShortMessageType.Continue
  | ShortMessageType.Stop =>
    process_incoming_midi_normal env s msg
  | ShortMessageType.SystemExclusiveStart
  | ShortMessageType.TimeCodeQuarterFrame
  | ShortMessageType.SongPositionPointer
  | ShortMessageType.SongSelect
  | ShortMessageType.SystemCommonUndefined1
  | ShortMessageType.SystemCommonUndefined2
  | ShortMessageType.TuneRequest
  | ShortMessageType.SystemExclusiveEnd
  | ShortMessageType.SystemRealTimeUndefined1
  | ShortMessageType.SystemRealTimeUndefined2
  | ShortMessageType.ActiveSensing
  | ShortMessageType.SystemReset =>
    process_unmatched_short s msg
  | ShortMessageType.TimingClock =>
    let r := env.clock_feed s.midi_clock_calculator frame_offset
    let s1 := { s with midi_clock_calculator := r.1 }
    match r.2 with
    | some bpm => (control s1 (MidiSourceValue.Tempo bpm)).1
    | none => s1

/-- `process_incoming_midi_from_fx_input`; the host transport query
`is_now_playing` is passed in as `now_playing`. -/
def process_incoming_midi_from_fx_input (env : MidiEnv) (s : RealTimeProcessor)
    (now_playing : Bool) (frame_offset : Nat) (msg : RawShortMessage) :
    RealTimeProcessor :=
  if s.midi_control_input = MidiControlInput.fx_input then
    let transport_is_starting := !s.was_playing_in_last_cycle && now_playing
    if transport_is_starting && decide (msg.msg_type = ShortMessageType.NoteOff) then
      process_unmatched_short s msg
    else
      process_incoming_midi env s frame_offset msg
  else s

/-- The `UpdateMappingActivations` loop: apply each sparse activation delta
in order; an update referencing an unknown mapping id panics
(`panic!` in the source), modelled as `none`. -/
def apply_activation_updates (s : RealTimeProcessor) :
    List MappingActivationUpdate → Option RealTimeProcessor
  | [] => some s
  | u :: rest =>
    if alist_contains s.mappings u.id then
      apply_activation_updates
        { s with mappings :=
            alist_update s.mappings u.id fun m => m.update_mapping_activation u.is_active }
        rest
    else none

/-- One arm of the `match task` in `idle` (real_time_processor.rs lines
109-201), without the ghost log update. `none` models a panic. -/
def apply_normal_task_core (env : MidiEnv) (s : RealTimeProcessor) :
    NormalRealTimeTask → Option RealTimeProcessor
  | NormalRealTimeTask.UpdateAllMappings ms =>
    some { s with mappings := ms.foldl (fun acc m => alist_insert acc m.id m) [] }
  | NormalRealTimeTask.UpdateSingleMapping m =>
    some { s with mappings := alist_insert s.mappings m.id m }
  | NormalRealTimeTask.EnableMappingsExclusively mappings_to_enable =>
    some { s with mappings := s.mappings.map fun p =>
      (p.1, p.2.update_target_activation (mappings_to_enable.contains p.2.id)) }
  | NormalRealTimeTask.UpdateSettings a b c d =>
    some { s with
      let_matched_events_through := a
      let_unmatched_events_through := b
      midi_control_input := c
      midi_feedback_output := d }
  | NormalRealTimeTask.UpdateSampleRate sample_rate =>
    some { s with midi_clock_calculator :=
      env.clock_update_sample_rate s.midi_clock_calculator sample_rate }
  | NormalRealTimeTask.StartLearnSource =>
    some { s with
      control_state := ControlState.LearningSource
      nrpn_scanner := 0
      cc_14_bit_scanner := 0
      source_scanner := 0 }
  | NormalRealTimeTask.StopLearnSource =>
    some { s with
      control_state := ControlState.Controlling
      nrpn_scanner := 0
      cc_14_bit_scanner := 0 }
  | NormalRealTimeTask.LogDebugInfo => some s
  | NormalRealTimeTask.UpdateMappingActivations activation_updates =>
    apply_activation_updates s activation_updates

/-- Application of one normal task, recording the task in the ghost
`processed_normal_log`. -/
def apply_normal_task (env : MidiEnv) (s : RealTimeProcessor)
    (t : NormalRealTimeTask) : Option RealTimeProcessor :=
  (apply_normal_task_core env s t).map fun s1 =>
    { s1 with processed_normal_log := s.processed_normal_log ++ [t] }

/-- Sequential application of a list of normal tasks (the drained prefix of
the normal task queue), aborting on the first panic. -/
def apply_normal_tasks (env : MidiEnv) (s : RealTimeProcessor) :
    List NormalRealTimeTask → Option RealTimeProcessor
  | [] => some s
  | t :: rest =>
    match apply_normal_task env s t with
    | some s1 => apply_normal_tasks env s1 rest
    | none => none

/-- `feedback`: emit a feedback source value through the configured feedback
output, if any. An empty short-message rendering (first array slot `none` in
the source) emits nothing. -/
def feedback (env : MidiEnv) (s : RealTimeProcessor)
    (value : MidiSourceValue) : RealTimeProcessor :=
  match s.midi_feedback_output with
  | none => s
  | some output =>
    let shorts := env.value_to_shorts value
    if shorts.isEmpty then s
    else
      match output with
      | MidiFeedbackOutput.fx_output => shorts.foldl forward_midi s
      | MidiFeedbackOutput.device _ =>
        { s with device_midi_sent := s.device_midi_sent ++ shorts }

/-- Application of one feedback task. -/
def apply_feedback_task (env : MidiEnv) (s : RealTimeProcessor) :
    FeedbackRealTimeTask → RealTimeProcessor
  | FeedbackRealTimeTask.Feedback value => feedback env s value

/-- `idle` (real_time_processor.rs lines 103-231): one real-time cycle.
Channel receivers are modelled as queues (lists) passed in and returned;
the host transport query is the `now_playing` argument; `device_events` is
the device read buffer for this cycle. Returns `none` when a task handler
panics, otherwise the new state and the remaining queues. -/
def idle (env : MidiEnv) (s : RealTimeProcessor) (sample_count : Nat)
    (now_playing : Bool) (device_events : List (Nat × RawShortMessage))
    (normal_queue : List NormalRealTimeTask)
    (feedback_queue : List FeedbackRealTimeTask) :
    Option (RealTimeProcessor × List NormalRealTimeTask × List FeedbackRealTimeTask) :=
  let s0 := { s with midi_clock_calculator :=
    env.clock_increase s.midi_clock_calculator sample_count }
  match apply_normal_tasks env s0 (normal_queue.take NORMAL_BULK_SIZE) with
  | none => none
  | some s1 =>
    let s2 := (feedback_queue.take FEEDBACK_BULK_SIZE).foldl (apply_feedback_task env) s1
    let s3 := { s2 with was_playing_in_last_cycle := now_playing }
    let s4 := match s3.midi_control_input with
      | MidiControlInput.device _ =>
        device_events.foldl (fun st e => process_incoming_midi env st e.1 e.2) s3
      | _ => s3
    let s5 := if s4.control_state = ControlState.LearningSource
      then poll_source_scanner env s4 else s4
    some (s5, normal_queue.drop NORMAL_BULK_SIZE, feedback_queue.drop FEEDBACK_BULK_SIZE)

/-- Per-cycle inputs for one `idle` invocation. -/
structure IdleInput where
  sample_count : Nat
  now_playing : Bool
  device_events : List (Nat × RawShortMessage)

/-- Iterated `idle` cycles over the same queues: each cycle drains up to the
bulk-size budget and leaves the remainder for the next cycle. -/
def run_idle_cycles (env : MidiEnv) (s : RealTimeProcessor)
    (normal_queue : List NormalRealTimeTask)
    (feedback_queue : List FeedbackRealTimeTask) :
    List IdleInput →
    Option (RealTimeProcessor × List NormalRealTimeTask × List FeedbackRealTimeTask)
  | [] => some (s, normal_queue, feedback_queue)
  | inp :: rest =>
    match idle env s inp.sample_count inp.now_playing inp.device_events
        normal_queue feedback_queue with
    | some r => run_idle_cycles env r.1 r.2.1 r.2.2 rest
    | none => none

/-- A crossbeam channel sender as seen by the garbage bin: an optional
capacity (`none` = unbounded) and the queued items. -/
structure GarbageSender where
  capacity : Option Nat
  queued : List Garbage

/-- crossbeam `try_send`: never blocks; fails (`none`) iff the channel is
bounded and full. -/
def GarbageSender.try_send (ch : GarbageSender) (g : Garbage) : Option GarbageSender :=
  match ch.capacity with
  | none => some { ch with queued := ch.queued ++ [g] }
  | some c =>
    if ch.queued.length < c then some { ch with queued := ch.queued ++ [g] }
    else none

/-- `GarbageBin` (control_surface.rs lines 593-623). -/
structure GarbageBin where
  sender : GarbageSender

/-- `GarbageBin::new`: asserts that the sender channel is bounded
(panics, modelled as `none`, on an unbounded channel). -/
def GarbageBin.new (sender : GarbageSender) : Option GarbageBin :=
  if sender.capacity.isSome then some { sender := sender } else none

/-- `GarbageBin::dispose`: `self.sender.try_send(garbage).unwrap()` — a
non-blocking send whose failure (full channel) is unwrapped, i.e. panics
(modelled as `none`). -/
def GarbageBin.dispose (bin : GarbageBin) (garbage : Garbage) : Option GarbageBin :=
  (bin.sender.try_send garbage).map fun ch => { sender := ch }

/-- Opaque OSC device id. -/
abbrev OscDeviceId := Nat

/-- `OscDevice` (osc_device_management.rs); the IPv4 host is opaque. -/
structure OscDevice where
  id : OscDeviceId
  name : String
  is_enabled_for_control : Bool
  local_port : Option Nat
  has_input_connection_problem : Bool
  is_enabled_for_feedback : Bool
  device_host : Option Nat
  device_port : Option Nat
  can_deal_with_bundles : Bool
  has_output_connection_problem : Bool
  deriving DecidableEq

/-- `OscDeviceConfig` (osc_device_management.rs). -/
structure OscDeviceConfig where
  devices : List OscDevice
  deriving DecidableEq

/-- `OscDeviceManager` (osc_device_management.rs); the change subject is
UI-only and omitted. -/
structure OscDeviceManager where
  config : OscDeviceConfig
  osc_device_config_file_path : String
  deriving DecidableEq

/-- The file system and JSON parser as seen by `OscDeviceManager::load`:
reading may fail (`none`), parsing may fail with a message. -/
structure OscIoEnv where
  read_to_string : String → Option String
  from_str : String → Except String OscDeviceConfig

/-- `OscDeviceManager::load` (osc_device_management.rs lines 36-43): read the
config file, parse it, and only on success replace the in-memory config.
Returns the (possibly unchanged) manager and the result. -/
def OscDeviceManager.load (env : OscIoEnv) (m : OscDeviceManager) :
    OscDeviceManager × Except String Unit :=
  match env.read_to_string m.osc_device_config_file_path with
  | none => (m, Except.error ("could not read OSC device config file"))
  | some json =>
    match env.from_str json with
    | Except.error e =>
      (m, Except.error ("OSC device config file is not valid. Details: " ++ e))
    | Except.ok config => ({ m with config := config }, Except.ok ())

/-- helgoboss_learn `AbsoluteMode` (external crate; modelled from the spec). -/
inductive AbsoluteMode where
  | Normal
  | IncrementalButtons
  | ToggleButtons
  deriving DecidableEq

/-- helgoboss_learn `OutOfRangeBehavior` (external crate; constructors per
the spec). -/
inductive OutOfRangeBehavior where
  | Ignore
  | ClampToMinOrMax
  | ClampToMinOrMaxAndFire
  deriving DecidableEq

/-- helgoboss_learn `TakeoverMode` (external crate; constructors per the
spec). -/
inductive TakeoverMode where
  | Normal
  | Pickup
  | LongTimeNoSee
  deriving DecidableEq

/-- helgoboss_learn `FireMode` (external crate; constructors per the spec). -/
inductive FireMode where
  | Normal
  | OnPress
  | OnLongPress
  | OnDoublePress
  | AfterTimeout
  deriving DecidableEq

/-- helgoboss_learn `ButtonUsage` (external crate). -/
inductive ButtonUsage where
  | Both
  | PressOnly
  | ReleaseOnly
  deriving DecidableEq

/-- helgoboss_learn `EncoderUsage` (external crate). -/
inductive EncoderUsage where
  | Both
  | IncrementOnly
  | DecrementOnly
  deriving DecidableEq

/-- helgoboss_learn `UnitValue` and `SoftSymmetricUnitValue`, modelled as
rationals. -/
abbrev UnitValue := ℚ

/-- helgoboss_learn `Interval`: a pair of bounds with `min_val`/`max_val`
projections. -/
structure Interval (α : Type) where
  low : α
  high : α
  deriving DecidableEq

/-- `Interval::new`. -/
def Interval.new {α : Type} (a b : α) : Interval α := ⟨a, b⟩

/-- `Interval::min_val`. -/
def Interval.min_val {α : Type} (i : Interval α) : α := i.low

/-- `Interval::max_val`. -/
def Interval.max_val {α : Type} (i : Interval α) : α := i.high

/-- `Interval::inverse` on unit intervals: mirror both bounds at 1. -/
def Interval.inverse (i : Interval UnitValue) : Interval UnitValue :=
  ⟨1 - i.high, 1 - i.low⟩

/-- std `Duration`, modelled as a number of nanoseconds. -/
abbrev Duration := Nat

/-- `Duration::as_millis() as u64`: millisecond count truncated to 64 bits. -/
def duration_as_millis_u64 (d : Duration) : Nat := (d / 1000000) % 2 ^ 64

/-- `Duration::from_millis`. -/
def duration_from_millis (m : Nat) : Duration := m * 1000000

/-- Modelled from the spec: `ModeModel` (application/mode_model.rs is not
among the provided sources). One plain field per reactive property that
`ModeModelData::from_model` reads and `apply_to_model_flexible` writes;
`set_with_optional_notification` is a plain field update (the notification
only drives the UI). -/
structure ModeModel where
  type : AbsoluteMode
  source_value_interval : Interval UnitValue
  target_value_interval : Interval UnitValue
  jump_interval : Interval UnitValue
  step_interval : Interval UnitValue
  press_duration_interval : Interval Duration
  turbo_rate : Duration
  eel_control_transformation : String
  eel_feedback_transformation : String
  reverse : Bool
  out_of_range_behavior : OutOfRangeBehavior
  fire_mode : FireMode
  round_target_value : Bool
  takeover_mode : TakeoverMode
  button_usage : ButtonUsage
  encoder_usage : EncoderUsage
  rotate : Bool
  make_absolute : Bool
  deriving DecidableEq

/-- `ModeModelData` (mode_model_data.rs lines 13-76): the serialized form of
a mode model. -/
structure ModeModelData where
  type : AbsoluteMode
  min_source_value : UnitValue
  max_source_value : UnitValue
  min_target_value : UnitValue
  max_target_value : UnitValue
  min_target_jump : UnitValue
  max_target_jump : UnitValue
  min_step_size : UnitValue
  max_step_size : UnitValue
  min_press_millis : Nat
  max_press_millis : Nat
  turbo_rate : Nat
  eel_control_transformation : String
  eel_feedback_transformation : String
  reverse_is_enabled : Bool
  ignore_out_of_range_source_values_is_enabled : Bool
  out_of_range_behavior : OutOfRangeBehavior
  fire_mode : FireMode
  round_target_value : Bool
  scale_mode_enabled : Bool
  takeover_mode : TakeoverMode
  button_usage : ButtonUsage
  encoder_usage : EncoderUsage
  rotate_is_enabled : Bool
  make_absolute_enabled : Bool
  deriving DecidableEq

/-- Modelled from the spec: `MigrationDescriptor`
(infrastructure/data/migration.rs is not among the provided sources); its
only field consulted by `apply_to_model_flexible` is the issue-117
target-interval transformation flag, whose derived `Default` is `false`. -/
structure MigrationDescriptor where
  target_interval_transformation_117 : Bool

/-- Modelled from the spec: `MigrationDescriptor::default()`. -/
def MigrationDescriptor.default : MigrationDescriptor := ⟨false⟩

/-- `ModeModelData::from_model` (mode_model_data.rs lines 87-125). -/
def ModeModelData.from_model (model : ModeModel) : ModeModelData :=
  { type := model.type
    min_source_value := model.source_value_interval.min_val
    max_source_value := model.source_value_interval.max_val
    min_target_value := model.target_value_interval.min_val
    max_target_value := model.target_value_interval.max_val
    min_target_jump := model.jump_interval.min_val
    max_target_jump := model.jump_interval.max_val
    min_step_size := model.step_interval.min_val
    max_step_size := model.step_interval.max_val
    min_press_millis := duration_as_millis_u64 model.press_duration_interval.min_val
    max_press_millis := duration_as_millis_u64 model.press_duration_interval.max_val
    turbo_rate := duration_as_millis_u64 model.turbo_rate
    eel_control_transformation := model.eel_control_transformation
    eel_feedback_transformation := model.eel_feedback_transformation
    reverse_is_enabled := model.reverse
    ignore_out_of_range_source_values_is_enabled := false
    out_of_range_behavior := model.out_of_range_behavior
    fire_mode := model.fire_mode
    round_target_value := model.round_target_value
    scale_mode_enabled := false
    takeover_mode := model.takeover_mode
    button_usage := model.button_usage
    encoder_usage := model.encoder_usage
    rotate_is_enabled := model.rotate
    make_absolute_enabled := model.make_absolute }

/-- `ModeModelData::apply_to_model_flexible` (mode_model_data.rs lines
127-236). Every mode field of the model is overwritten; the mapping name
and notification flag only affect logging and UI notification. -/
def ModeModelData.apply_to_model_flexible (d : ModeModelData) (_model : ModeModel)
    (migration_descriptor : MigrationDescriptor) (_mapping_name : String)
    (_with_notification : Bool) : ModeModel :=
  let saved_target_interval := Interval.new d.min_target_value d.max_target_value
  let actual_target_interval :=
    if migration_descriptor.target_interval_transformation_117
        && d.reverse_is_enabled
        && decide (d.type = AbsoluteMode.Normal) then
      saved_target_interval.inverse
    else saved_target_interval
  let actual_out_of_range_behavior :=
    if d.ignore_out_of_range_source_values_is_enabled then
      OutOfRangeBehavior.Ignore
    else d.out_of_range_behavior
  let actual_takeover_mode :=
    if d.scale_mode_enabled then TakeoverMode.LongTimeNoSee
    else d.takeover_mode
  { type := d.type
    source_value_interval := Interval.new d.min_source_value d.max_source_value
    target_value_interval := actual_target_interval
    step_interval := Interval.new d.min_step_size d.max_step_size
    press_duration_interval := Interval.new
      (duration_from_millis d.min_press_millis)
      (duration_from_millis d.max_press_millis)
    turbo_rate := duration_from_millis d.turbo_rate
    jump_interval := Interval.new d.min_target_jump d.max_target_jump
    eel_control_transformation := d.eel_control_transformation
    eel_feedback_transformation := d.eel_feedback_transformation
    reverse := d.reverse_is_enabled
    fire_mode := d.fire_mode
    out_of_range_behavior := actual_out_of_range_behavior
    round_target_value := d.round_target_value
    takeover_mode := actual_takeover_mode
    button_usage := d.button_usage
    encoder_usage := d.encoder_usage
    rotate := d.rotate_is_enabled
    make_absolute := d.make_absolute_enabled }

/-- `ModeModelData::apply_to_model` (mode_model_data.rs lines 127-129):
apply with the default migration descriptor. -/
def ModeModelData.apply_to_model (d : ModeModelData) (model : ModeModel) : ModeModel :=
  d.apply_to_model_flexible model MigrationDescriptor.default ("") true

/-- Millisecond serialization of a duration is lossless exactly on whole
milliseconds that fit into 64 bits. -/
theorem duration_millis_roundtrip (d : Duration) (h : d % 1000000 = 0)
    (hlt : d < 2 ^ 64 * 1000000) :
    duration_from_millis (duration_as_millis_u64 d) = d := by
  unfold duration_from_millis duration_as_millis_u64
  have hdiv : d / 1000000 < 2 ^ 64 := Nat.div_lt_of_lt_mul hlt
  rw [Nat.mod_eq_of_lt hdiv, Nat.div_mul_cancel (Nat.dvd_of_mod_eq_zero h)]

/-- A concrete mode model used by several examples. -/
def base_mode_model : ModeModel :=
  { type := AbsoluteMode.Normal
    source_value_interval := Interval.new 0 1
    target_value_interval := Interval.new 0 1
    jump_interval := Interval.new 0 1
    step_interval := Interval.new 0 1
    press_duration_interval := Interval.new 0 0
    turbo_rate := 0
    eel_control_transformation := ""
    eel_feedback_transformation := ""
    reverse := false
    out_of_range_behavior := OutOfRangeBehavior.ClampToMinOrMax
    fire_mode := FireMode.Normal
    round_target_value := false
    takeover_mode := TakeoverMode.Normal
    button_usage := ButtonUsage.Both
    encoder_usage := EncoderUsage.Both
    rotate := false
    make_absolute := false }

/-- A mode model whose press-duration interval is not a whole number of
milliseconds (0.5 ms and 1 ms). -/
def nonintegral_ms_mode_model : ModeModel :=
  { base_mode_model with press_duration_interval := Interval.new 500000 1000000 }

/-- A mode model whose durations are whole milliseconds (2 ms, 3 ms, 1 ms). -/
def whole_ms_mode_model : ModeModel :=
  { base_mode_model with
    press_duration_interval := Interval.new 2000000 3000000
    turbo_rate := 1000000 }

/-- C9 counterexample: the serialize/deserialize round trip is not the
identity on every mode model — a press-duration interval of 0.5 ms is
truncated to 0 by the millisecond-valued serialization format. -/
theorem mode_model_roundtrip_cx :
    ModeModelData.apply_to_model (ModeModelData.from_model nonintegral_ms_mode_model)
      nonintegral_ms_mode_model ≠ nonintegral_ms_mode_model := by
  decide

/-- C9 (amended): serializing a mode model with `ModeModelData::from_model`
and applying it back with `apply_to_model` under the default migration
descriptor restores every serialized mode field, provided the
press-duration interval bounds and the turbo rate are whole numbers of
milliseconds whose millisecond counts fit into a u64. The target model the
data is applied to is irrelevant: every field is overwritten. -/
theorem mode_model_data_roundtrip (m m₀ : ModeModel)
    (h1 : m.press_duration_interval.low % 1000000 = 0)
    (h2 : m.press_duration_interval.high % 1000000 = 0)
    (h3 : m.turbo_rate % 1000000 = 0)
    (h4 : m.press_duration_interval.low < 2 ^ 64 * 1000000)
    (h5 : m.press_duration_interval.high < 2 ^ 64 * 1000000)
    (h6 : m.turbo_rate < 2 ^ 64 * 1000000) :
    ModeModelData.apply_to_model (ModeModelData.from_model m) m₀ = m := by
  rcases m with ⟨t, ⟨svl, svh⟩, ⟨tvl, tvh⟩, ⟨jl, jh⟩, ⟨sl, sh⟩, ⟨pl, ph⟩, tr,
    ect, eft, rev, oorb, fm, rtv, tm, bu, eu, rot, ma⟩
  simp only [ModeModelData.apply_to_model, ModeModelData.apply_to_model_flexible,
    ModeModelData.from_model, MigrationDescriptor.default, Interval.new,
    Interval.min_val, Interval.max_val, Bool.false_and, Bool.and_eq_true] at *
  rw [duration_millis_roundtrip pl h1 h4, duration_millis_roundtrip ph h2 h5,
    duration_millis_roundtrip tr h3 h6]
  simp

/-- C9 witness: the round trip at a concrete whole-millisecond model. -/
theorem mode_model_data_roundtrip_witness :
    whole_ms_mode_model.press_duration_interval.low % 1000000 = 0 ∧
    whole_ms_mode_model.press_duration_interval.high % 1000000 = 0 ∧
    whole_ms_mode_model.turbo_rate % 1000000 = 0 ∧
    whole_ms_mode_model.press_duration_interval.low < 2 ^ 64 * 1000000 ∧
    whole_ms_mode_model.press_duration_interval.high < 2 ^ 64 * 1000000 ∧
    whole_ms_mode_model.turbo_rate < 2 ^ 64 * 1000000 ∧
    ModeModelData.apply_to_model (ModeModelData.from_model whole_ms_mode_model)
      base_mode_model = whole_ms_mode_model :=
  ⟨by decide, by decide, by decide, by decide, by decide, by decide,
    mode_model_data_roundtrip whole_ms_mode_model base_mode_model
      (by decide) (by decide) (by decide) (by decide) (by decide) (by decide)⟩

/-- C10 (confirmed): the deprecated `ignore_out_of_range_source_values`
flag forces the out-of-range behavior to `Ignore`; when it is unset, the
stored out-of-range behavior is applied as-is. -/
theorem deprecated_ignore_flag_behavior (d : ModeModelData) (m : ModeModel) :
    (d.apply_to_model m).out_of_range_behavior =
      (if d.ignore_out_of_range_source_values_is_enabled then
        OutOfRangeBehavior.Ignore
      else d.out_of_range_behavior) := by
  simp only [ModeModelData.apply_to_model, ModeModelData.apply_to_model_flexible]

/-- C8 (confirmed): a failing read or parse of the OSC device configuration
file leaves the in-memory device configuration untouched and reports the
error as a string. -/
theorem osc_load_error_no_mutation (env : OscIoEnv) (m : OscDeviceManager)
    (h : env.read_to_string m.osc_device_config_file_path = none ∨
      ∃ json e, env.read_to_string m.osc_device_config_file_path = some json ∧
        env.from_str json = Except.error e) :
    (OscDeviceManager.load env m).1 = m ∧
      ∃ msg, (OscDeviceManager.load env m).2 = Except.error msg := by
  unfold OscDeviceManager.load
  rcases h with h | ⟨json, e, hr, hp⟩
  · rw [h]
    exact ⟨rfl, _, rfl⟩
  · simp [hr, hp]

/-- An environment in which every file read fails. -/
def failing_osc_env : OscIoEnv :=
  { read_to_string := fun _ => none
    from_str := fun _ => Except.error ("unused") }

/-- A concrete device manager. -/
def sample_osc_manager : OscDeviceManager :=
  { config := ⟨[]⟩, osc_device_config_file_path := ("devices.json") }

/-- C8 witness: loading under a failing file system leaves the manager
unchanged and yields a string error. -/
theorem osc_load_error_no_mutation_witness :
    (failing_osc_env.read_to_string sample_osc_manager.osc_device_config_file_path = none ∨
      ∃ json e,
        failing_osc_env.read_to_string sample_osc_manager.osc_device_config_file_path
          = some json ∧ failing_osc_env.from_str json = Except.error e) ∧
    ((OscDeviceManager.load failing_osc_env sample_osc_manager).1 = sample_osc_manager ∧
      ∃ msg,
        (OscDeviceManager.load failing_osc_env sample_osc_manager).2 = Except.error msg) :=
  ⟨Or.inl rfl, osc_load_error_no_mutation failing_osc_env sample_osc_manager (Or.inl rfl)⟩

/-- A garbage bin over a bounded channel of capacity 0 (already full). -/
def full_garbage_bin : GarbageBin := ⟨⟨some 0, []⟩⟩

/-- C2 counterexample: disposing into a full channel does not drop the
message and continue — `dispose` unwraps the failed `try_send`, i.e.
panics (modelled as `none`). -/
theorem garbage_dispose_full_panics :
    GarbageBin.dispose full_garbage_bin (Garbage.RawMidiEvent 0) = none := rfl

/-- C2 (amended): the garbage-disposal channel is always bounded
(construction asserts boundedness) and `dispose` never blocks — it is a
try-send that either enqueues (channel not full) or panics (channel full);
a full channel causes a panic, not a logged drop. -/
theorem garbage_bin_bounded_nonblocking (ch : GarbageSender) (bin : GarbageBin)
    (h : GarbageBin.new ch = some bin) :
    bin.sender.capacity.isSome = true ∧
    (∀ g c, bin.sender.capacity = some c → c ≤ bin.sender.queued.length →
      GarbageBin.dispose bin g = none) ∧
    (∀ g c, bin.sender.capacity = some c → bin.sender.queued.length < c →
      GarbageBin.dispose bin g =
        some ⟨⟨bin.sender.capacity, bin.sender.queued ++ [g]⟩⟩) := by
  unfold GarbageBin.new at h
  by_cases hc : ch.capacity.isSome = true
  · rw [if_pos hc] at h
    cases h
    refine ⟨hc, ?_, ?_⟩
    · intro g c hcap hfull
      unfold GarbageBin.dispose GarbageSender.try_send
      rw [hcap]
      simp [Nat.not_lt.mpr hfull]
    · intro g c hcap hroom
      unfold GarbageBin.dispose GarbageSender.try_send
      rw [hcap]
      simp [hroom, hcap]
  · rw [if_neg hc] at h
    cases h
/-- C2 witness: a bin over a bounded channel of capacity 1 — bounded,
panics when full, enqueues when not full. -/
theorem garbage_bin_bounded_nonblocking_witness :
    GarbageBin.new ⟨some 1, []⟩ = some ⟨⟨some 1, []⟩⟩ ∧
    (GarbageBin.mk ⟨some 1, []⟩).sender.capacity.isSome = true ∧
    (∀ g c, (GarbageBin.mk ⟨some 1, []⟩).sender.capacity = some c →
      c ≤ (GarbageBin.mk ⟨some 1, []⟩).sender.queued.length →
      GarbageBin.dispose ⟨⟨some 1, []⟩⟩ g = none) ∧
    (∀ g c, (GarbageBin.mk ⟨some 1, []⟩).sender.capacity = some c →
      (GarbageBin.mk ⟨some 1, []⟩).sender.queued.length < c →
      GarbageBin.dispose ⟨⟨some 1, []⟩⟩ g =
        some ⟨⟨(GarbageBin.mk ⟨some 1, []⟩).sender.capacity,
          (GarbageBin.mk ⟨some 1, []⟩).sender.queued ++ [g]⟩⟩) :=
  ⟨rfl, garbage_bin_bounded_nonblocking ⟨some 1, []⟩ ⟨⟨some 1, []⟩⟩ rfl⟩

/-- An environment in which every external scanner yields nothing and the
clock simply counts samples. -/
def trivial_midi_env : MidiEnv :=
  { nrpn_feed := fun st _ => (st, none)
    cc14_feed := fun st _ => (st, none)
    source_scanner_feed := fun st _ => (st, none)
    source_scanner_poll := fun st => (st, none)
    clock_feed := fun st _ => (st, none)
    clock_increase := fun st n => st + n
    clock_update_sample_rate := fun st _ => st
    nrpn_to_shorts := fun _ => []
    cc14_to_shorts := fun _ => []
    value_to_shorts := fun _ => [] }

/-- A mapping that is effectively on but matches and consumes nothing. -/
def inert_mapping (i : Nat) : RealTimeProcessorMapping :=
  ⟨i, true, true, fun _ => none, fun _ => false⟩

/-- A baseline real-time processor state in `Controlling` mode with FX
input and empty logs. -/
def s_rt0 : RealTimeProcessor :=
  { control_state := ControlState.Controlling
    midi_control_input := MidiControlInput.fx_input
    midi_feedback_output := none
    mappings := []
    let_matched_events_through := false
    let_unmatched_events_through := false
    nrpn_scanner := 0
    cc_14_bit_scanner := 0
    was_playing_in_last_cycle := false
    source_scanner := 0
    midi_clock_calculator := 0
    sent_control_main := []
    sent_normal_main := []
    forwarded_midi := []
    device_midi_sent := []
    fed_to_source_scanner := []
    processed_normal_log := []
    garbage_sent := [] }

/-- C3 counterexample: handling `UpdateAllMappings` on a state that holds a
nonempty old mapping table transfers nothing into the garbage queue — the
old table is dropped in place on the realtime thread. -/
theorem update_all_mappings_no_garbage_cx :
    (apply_normal_task trivial_midi_env
        { s_rt0 with mappings := [(1, inert_mapping 1)] }
        (NormalRealTimeTask.UpdateAllMappings [inert_mapping 2])).map
      (fun s => s.garbage_sent) = some [] ∧
    ({ s_rt0 with mappings := [(1, inert_mapping 1)] } :
      RealTimeProcessor).mappings ≠ [] := by
  constructor
  · rfl
  · simp [s_rt0]

/-- C3 (amended): `UpdateAllMappings` replaces the mapping table in place:
the new state holds exactly the freshly collected table, and nothing —
in particular not the old table — is transferred into the garbage-disposal
channel (the real-time processor holds no garbage-bin sender). -/
theorem update_all_mappings_in_place (env : MidiEnv) (s : RealTimeProcessor)
    (ms : List RealTimeProcessorMapping) :
    apply_normal_task env s (NormalRealTimeTask.UpdateAllMappings ms) =
      some { s with
        mappings := ms.foldl (fun acc m => alist_insert acc m.id m) []
        processed_normal_log :=
          s.processed_normal_log ++ [NormalRealTimeTask.UpdateAllMappings ms] } ∧
    ({ s with
        mappings := ms.foldl (fun acc m => alist_insert acc m.id m) []
        processed_normal_log :=
          s.processed_normal_log ++ [NormalRealTimeTask.UpdateAllMappings ms] } :
      RealTimeProcessor).garbage_sent = s.garbage_sent :=
  ⟨rfl, rfl⟩

/-- C5 (confirmed): in `Controlling` state, a plain short message consumed
by some effectively-on mapping is dropped entirely: no matched-path or
unmatched-path forwarding, no control event, regardless of the
pass-through flags. -/
theorem consumed_suppresses_passthrough (env : MidiEnv) (s : RealTimeProcessor)
    (msg : RawShortMessage) (h1 : s.control_state = ControlState.Controlling)
    (h2 : is_consumed s msg = true) :
    process_incoming_midi_normal_plain env s msg = s := by
  unfold process_incoming_midi_normal_plain
  rw [h1]
  simp [h2]

/-- A mapping that consumes every short message. -/
def consuming_mapping (i : Nat) : RealTimeProcessorMapping :=
  ⟨i, true, true, fun _ => none, fun _ => true⟩

/-- A state with one consuming mapping and both pass-through flags set. -/
def s_consuming : RealTimeProcessor :=
  { s_rt0 with
    mappings := [(1, consuming_mapping 1)]
    let_matched_events_through := true
    let_unmatched_events_through := true }

/-- C5 witness: a concrete consumed message is neither forwarded nor turned
into a control event even with both pass-through flags set. -/
theorem consumed_suppresses_passthrough_witness :
    s_consuming.control_state = ControlState.Controlling ∧
    is_consumed s_consuming ⟨ShortMessageType.ControlChange, 7⟩ = true ∧
    process_incoming_midi_normal_plain trivial_midi_env s_consuming
      ⟨ShortMessageType.ControlChange, 7⟩ = s_consuming :=
  ⟨rfl, rfl,
    consumed_suppresses_passthrough trivial_midi_env s_consuming
      ⟨ShortMessageType.ControlChange, 7⟩ rfl rfl⟩

/-- C6 (confirmed): a Note-Off arriving from FX input in the cycle in which
the transport transitions from not playing to playing takes exactly the
unmatched/pass-through path and is never matched (no control event is
enqueued). -/
theorem transport_start_note_off_unmatched (env : MidiEnv)
    (s : RealTimeProcessor) (now_playing : Bool) (frame_offset : Nat)
    (msg : RawShortMessage) (h1 : s.midi_control_input = MidiControlInput.fx_input)
    (h2 : s.was_playing_in_last_cycle = false) (h3 : now_playing = true)
    (h4 : msg.msg_type = ShortMessageType.NoteOff) :
    process_incoming_midi_from_fx_input env s now_playing frame_offset msg =
      process_unmatched_short s msg ∧
    (process_incoming_midi_from_fx_input env s now_playing frame_offset msg).sent_control_main
      = s.sent_control_main := by
  have key : process_incoming_midi_from_fx_input env s now_playing frame_offset msg =
      process_unmatched_short s msg := by
    unfold process_incoming_midi_from_fx_input
    rw [if_pos h1, h2, h3, h4]
    simp
  refine ⟨key, ?_⟩
  rw [key]
  unfold process_unmatched_short forward_midi
  split
  · rfl
  · split
    · rfl
    · rfl

/-- A state in `Controlling` mode with an inert mapping, FX input, both
pass-through flags set and the transport not yet playing. -/
def s_transport : RealTimeProcessor :=
  { s_rt0 with
    mappings := [(1, inert_mapping 1)]
    let_matched_events_through := true
    let_unmatched_events_through := true }

/-- C6 witness: the transport-start Note-Off at a concrete state. -/
theorem transport_start_note_off_unmatched_witness :
    s_transport.midi_control_input = MidiControlInput.fx_input ∧
    s_transport.was_playing_in_last_cycle = false ∧
    (process_incoming_midi_from_fx_input trivial_midi_env s_transport true 0
        ⟨ShortMessageType.NoteOff, 60⟩ =
      process_unmatched_short s_transport ⟨ShortMessageType.NoteOff, 60⟩ ∧
    (process_incoming_midi_from_fx_input trivial_midi_env s_transport true 0
        ⟨ShortMessageType.NoteOff, 60⟩).sent_control_main
      = s_transport.sent_control_main) :=
  ⟨rfl, rfl,
    transport_start_note_off_unmatched trivial_midi_env s_transport true 0
      ⟨ShortMessageType.NoteOff, 60⟩ rfl rfl rfl rfl⟩

/-- Updating an entry does not change which keys are present. -/
theorem alist_contains_update {α : Type} (l : List (Nat × α)) (k j : Nat)
    (f : α → α) : alist_contains (alist_update l k f) j = alist_contains l j := by
  induction l with
  | nil => rfl
  | cons p rest ih =>
    by_cases hk : p.1 = k
    · simp [alist_update, alist_contains, hk]
    · simp [alist_update, alist_contains, hk, ih]

/-- Lookup after updating the same key maps the stored value. -/
theorem alist_get_update_self {α : Type} (l : List (Nat × α)) (k : Nat)
    (f : α → α) : alist_get (alist_update l k f) k = (alist_get l k).map f := by
  induction l with
  | nil => rfl
  | cons p rest ih =>
    by_cases hk : p.1 = k
    · simp [alist_update, alist_get, hk]
    · simp [alist_update, alist_get, hk, ih]

/-- Lookup after updating a different key is unchanged. -/
theorem alist_get_update_other {α : Type} (l : List (Nat × α)) (k j : Nat)
    (f : α → α) (h : j ≠ k) :
    alist_get (alist_update l k f) j = alist_get l j := by
  induction l with
  | nil => rfl
  | cons p rest ih =>
    by_cases hk : p.1 = k
    · have hj : ¬ k = j := fun hkj => h hkj.symm
      simp [alist_update, alist_get, hk, hj]
    · simp [alist_update, alist_get, hk, ih]

/-- A contained key has a stored value. -/
theorem alist_contains_get {α : Type} (l : List (Nat × α)) (k : Nat)
    (h : alist_contains l k = true) : ∃ v, alist_get l k = some v := by
  induction l with
  | nil => simp [alist_contains] at h
  | cons p rest ih =>
    by_cases hk : p.1 = k
    · exact ⟨p.2, by simp [alist_get, hk]⟩
    · rw [alist_contains, if_neg hk] at h
      obtain ⟨v, hv⟩ := ih h
      exact ⟨v, by simp [alist_get, hk, hv]⟩

/-- The mapping-table fold performed by `UpdateMappingActivations`. -/
def activation_fold (ms : List (Nat × RealTimeProcessorMapping))
    (us : List MappingActivationUpdate) : List (Nat × RealTimeProcessorMapping) :=
  us.foldl
    (fun acc u => alist_update acc u.id fun m => m.update_mapping_activation u.is_active)
    ms

/-- If some update references an unknown id, the activation loop panics. -/
theorem apply_activation_updates_unknown (s : RealTimeProcessor)
    (us : List MappingActivationUpdate) (u : MappingActivationUpdate)
    (hu : u ∈ us) (hmiss : alist_contains s.mappings u.id = false) :
    apply_activation_updates s us = none := by
  induction us generalizing s with
  | nil => cases hu
  | cons w rest ih =>
    unfold apply_activation_updates
    by_cases hw : alist_contains s.mappings w.id = true
    · rw [if_pos hw]
      rcases List.mem_cons.mp hu with heq | hrest
      · subst heq
        rw [hw] at hmiss
        cases hmiss
      · exact ih _ hrest (by rw [alist_contains_update]; exact hmiss)
    · rw [if_neg hw]

/-- If every update references a known id, the activation loop succeeds and
performs exactly the activation fold on the mapping table. -/
theorem apply_activation_updates_known (s : RealTimeProcessor)
    (us : List MappingActivationUpdate)
    (h : ∀ u ∈ us, alist_contains s.mappings u.id = true) :
    apply_activation_updates s us =
      some { s with mappings := activation_fold s.mappings us } := by
  induction us generalizing s with
  | nil => rfl
  | cons w rest ih =>
    unfold apply_activation_updates
    rw [if_pos (h w (List.mem_cons_self w rest))]
    rw [ih _ fun u hu => by
      rw [alist_contains_update]
      exact h u (List.mem_cons_of_mem w hu)]
    rfl

/-- Folding updates none of which touch key `k` preserves lookup at `k`. -/
theorem activation_fold_get_untouched (ms : List (Nat × RealTimeProcessorMapping))
    (us : List MappingActivationUpdate) (k : Nat) (h : ∀ v ∈ us, v.id ≠ k) :
    alist_get (activation_fold ms us) k = alist_get ms k := by
  induction us generalizing ms with
  | nil => rfl
  | cons w rest ih =>
    unfold activation_fold at *
    rw [List.foldl_cons, ih _ fun v hv => h v (List.mem_cons_of_mem w hv),
      alist_get_update_other _ _ _ _
        fun hk => h w (List.mem_cons_self w rest) hk.symm]

/-- After the activation fold, a mapping referenced by the last update with
its id carries that update's activation value. -/
theorem activation_fold_get_last (ms : List (Nat × RealTimeProcessorMapping))
    (l₁ l₂ : List MappingActivationUpdate) (u : MappingActivationUpdate)
    (hcont : alist_contains ms u.id = true) (hlast : ∀ v ∈ l₂, v.id ≠ u.id) :
    ∃ m, alist_get (activation_fold ms (l₁ ++ u :: l₂)) u.id = some m ∧
      m.mapping_is_active = u.is_active := by
  induction l₁ generalizing ms with
  | nil =>
    obtain ⟨v, hv⟩ := alist_contains_get ms u.id hcont
    refine ⟨v.update_mapping_activation u.is_active, ?_, rfl⟩
    show alist_get (activation_fold (alist_update ms u.id _) l₂) u.id = _
    rw [activation_fold_get_untouched _ _ _ hlast, alist_get_update_self, hv]
    rfl
  | cons w l₁ ih =>
    show ∃ m, alist_get (activation_fold (alist_update ms w.id _) (l₁ ++ u :: l₂))
      u.id = some m ∧ m.mapping_is_active = u.is_active
    exact ih _ (by rw [alist_contains_update]; exact hcont)

/-- C7 (confirmed): `UpdateMappingActivations` referencing any unknown
mapping id aborts fatally (a panic, not a recoverable error); when every id
is known it succeeds and each referenced mapping's activation bit ends up at
the value of the last update that references it. -/
theorem update_mapping_activations_spec (env : MidiEnv) (s : RealTimeProcessor)
    (updates : List MappingActivationUpdate) :
    ((∃ u ∈ updates, alist_contains s.mappings u.id = false) →
      apply_normal_task env s
        (NormalRealTimeTask.UpdateMappingActivations updates) = none) ∧
    ((∀ u ∈ updates, alist_contains s.mappings u.id = true) →
      ∃ s₁, apply_normal_task env s
          (NormalRealTimeTask.UpdateMappingActivations updates) = some s₁ ∧
        ∀ l₁ u l₂, updates = l₁ ++ u :: l₂ → (∀ v ∈ l₂, v.id ≠ u.id) →
          ∃ m, alist_get s₁.mappings u.id = some m ∧
            m.mapping_is_active = u.is_active) := by
  constructor
  · rintro ⟨u, hu, hmiss⟩
    simp only [apply_normal_task, apply_normal_task_core]
    rw [apply_activation_updates_unknown s updates u hu hmiss]
    rfl
  · intro hknown
    simp only [apply_normal_task, apply_normal_task_core]
    rw [apply_activation_updates_known s updates hknown]
    refine ⟨_, rfl, ?_⟩
    rintro l₁ u l₂ rfl hlast
    exact activation_fold_get_last s.mappings l₁ l₂ u
      (hknown u (by simp)) hlast

/-- C7 witness: a concrete unknown-id batch panics; a concrete known-id
batch flips the mapping's activation bit. -/
theorem update_mapping_activations_spec_witness :
    (apply_normal_task trivial_midi_env
      { s_rt0 with mappings := [(1, inert_mapping 1)] }
      (NormalRealTimeTask.UpdateMappingActivations [⟨2, true⟩]) = none) ∧
    (∃ s₁, apply_normal_task trivial_midi_env
        { s_rt0 with mappings := [(1, inert_mapping 1)] }
        (NormalRealTimeTask.UpdateMappingActivations [⟨1, false⟩]) = some s₁ ∧
      ∀ l₁ u l₂, ([⟨1, false⟩] : List MappingActivationUpdate) = l₁ ++ u :: l₂ →
        (∀ v ∈ l₂, v.id ≠ u.id) →
        ∃ m, alist_get s₁.mappings u.id = some m ∧
          m.mapping_is_active = u.is_active) :=
  ⟨(update_mapping_activations_spec trivial_midi_env
      { s_rt0 with mappings := [(1, inert_mapping 1)] } [⟨2, true⟩]).1
    ⟨⟨2, true⟩, by simp, rfl⟩,
   (update_mapping_activations_spec trivial_midi_env
      { s_rt0 with mappings := [(1, inert_mapping 1)] } [⟨1, false⟩]).2
    (by rintro u hu; simp at hu; subst hu; rfl)⟩

@[simp]
theorem forward_midi_log (s : RealTimeProcessor) (msg : RawShortMessage) :
    (forward_midi s msg).processed_normal_log = s.processed_normal_log := rfl

@[simp]
theorem foldl_forward_midi_log (l : List RawShortMessage) (s : RealTimeProcessor) :
    (l.foldl forward_midi s).processed_normal_log = s.processed_normal_log := by
  induction l generalizing s with
  | nil => rfl
  | cons m rest ih => simp [List.foldl_cons, ih]

@[simp]
theorem process_matched_short_log (s : RealTimeProcessor) (msg : RawShortMessage) :
    (process_matched_short s msg).processed_normal_log = s.processed_normal_log := by
  unfold process_matched_short
  split
  · rfl
  split
  · rfl
  · rfl

@[simp]
theorem process_unmatched_short_log (s : RealTimeProcessor) (msg : RawShortMessage) :
    (process_unmatched_short s msg).processed_normal_log = s.processed_normal_log := by
  unfold process_unmatched_short
  split
  · rfl
  split
  · rfl
  · rfl

@[simp]
theorem control_fst_log (s : RealTimeProcessor) (v : MidiSourceValue) :
    (control s v).1.processed_normal_log = s.processed_normal_log := rfl

@[simp]
theorem learn_source_log (s : RealTimeProcessor) (src : MidiSource) :
    (learn_source s src).processed_normal_log = s.processed_normal_log := rfl

@[simp]
theorem feed_source_scanner_log (env : MidiEnv) (s : RealTimeProcessor)
    (v : MidiSourceValue) :
    (feed_source_scanner env s v).processed_normal_log = s.processed_normal_log := by
  simp only [feed_source_scanner]
  cases (env.source_scanner_feed s.source_scanner v).2 <;> rfl

@[simp]
theorem poll_source_scanner_log (env : MidiEnv) (s : RealTimeProcessor) :
    (poll_source_scanner env s).processed_normal_log = s.processed_normal_log := by
  simp only [poll_source_scanner]
  cases (env.source_scanner_poll s.source_scanner).2 <;> rfl

@[simp]
theorem process_incoming_midi_normal_nrpn_log (env : MidiEnv)
    (s : RealTimeProcessor) (msg : ParameterNumberMessage) :
    (process_incoming_midi_normal_nrpn env s msg).processed_normal_log
      = s.processed_normal_log := by
  simp only [process_incoming_midi_normal_nrpn]
  repeat' split
  all_goals (first | rfl | simp)

@[simp]
theorem process_incoming_midi_normal_cc14_log (env : MidiEnv)
    (s : RealTimeProcessor) (msg : ControlChange14BitMessage) :
    (process_incoming_midi_normal_cc14 env s msg).processed_normal_log
      = s.processed_normal_log := by
  simp only [process_incoming_midi_normal_cc14]
  repeat' split
  all_goals (first | rfl | simp)

@[simp]
theorem process_incoming_midi_normal_plain_log (env : MidiEnv)
    (s : RealTimeProcessor) (msg : RawShortMessage) :
    (process_incoming_midi_normal_plain env s msg).processed_normal_log
      = s.processed_normal_log := by
  simp only [process_incoming_midi_normal_plain]
  repeat' split
  all_goals (first | rfl | simp)

@[simp]
theorem process_incoming_midi_normal_log (env : MidiEnv)
    (s : RealTimeProcessor) (msg : RawShortMessage) :
    (process_incoming_midi_normal env s msg).processed_normal_log
      = s.processed_normal_log := by
  simp only [process_incoming_midi_normal]
  repeat' split
  all_goals (first | rfl | simp)

@[simp]
theorem process_incoming_midi_log (env : MidiEnv) (s : RealTimeProcessor)
    (frame_offset : Nat) (msg : RawShortMessage) :
    (process_incoming_midi env s frame_offset msg).processed_normal_log
      = s.processed_normal_log := by
  simp only [process_incoming_midi]
  repeat' split
  all_goals (first | rfl | simp)

@[simp]
theorem feedback_log (env : MidiEnv) (s : RealTimeProcessor)
    (v : MidiSourceValue) :
    (feedback env s v).processed_normal_log = s.processed_normal_log := by
  simp only [feedback]
  repeat' split
  all_goals (first | rfl | simp)

@[simp]
theorem apply_feedback_task_log (env : MidiEnv) (s : RealTimeProcessor)
    (t : FeedbackRealTimeTask) :
    (apply_feedback_task env s t).processed_normal_log = s.processed_normal_log := by
  cases t
  simp [apply_feedback_task]

@[simp]
theorem foldl_apply_feedback_task_log (env : MidiEnv)
    (l : List FeedbackRealTimeTask) (s : RealTimeProcessor) :
    ((l.foldl (apply_feedback_task env) s).processed_normal_log
      = s.processed_normal_log) := by
  induction l generalizing s with
  | nil => rfl
  | cons t rest ih => simp [List.foldl_cons, ih]

@[simp]
theorem foldl_device_events_log (env : MidiEnv)
    (l : List (Nat × RawShortMessage)) (s : RealTimeProcessor) :
    ((l.foldl (fun st e => process_incoming_midi env st e.1 e.2) s).processed_normal_log
      = s.processed_normal_log) := by
  induction l generalizing s with
  | nil => rfl
  | cons e rest ih => simp [List.foldl_cons, ih]

theorem apply_activation_updates_log (s : RealTimeProcessor)
    (us : List MappingActivationUpdate) (s₁ : RealTimeProcessor)
    (h : apply_activation_updates s us = some s₁) :
    s₁.processed_normal_log = s.processed_normal_log := by
  induction us generalizing s with
  | nil =>
    unfold apply_activation_updates at h
    cases h
    rfl
  | cons u rest ih =>
    unfold apply_activation_updates at h
    by_cases hc : alist_contains s.mappings u.id = true
    · rw [if_pos hc] at h
      have h2 := ih _ h
      exact h2
    · rw [if_neg hc] at h
      cases h

theorem apply_normal_task_core_log (env : MidiEnv) (s : RealTimeProcessor)
    (t : NormalRealTimeTask) (s₁ : RealTimeProcessor)
    (h : apply_normal_task_core env s t = some s₁) :
    s₁.processed_normal_log = s.processed_normal_log := by
  cases t <;> simp only [apply_normal_task_core] at h
  case UpdateMappingActivations us => exact apply_activation_updates_log s us s₁ h
  all_goals (cases h; rfl)

theorem apply_normal_task_log (env : MidiEnv) (s : RealTimeProcessor)
    (t : NormalRealTimeTask) (s₁ : RealTimeProcessor)
    (h : apply_normal_task env s t = some s₁) :
    s₁.processed_normal_log = s.processed_normal_log ++ [t] := by
  unfold apply_normal_task at h
  cases hc : apply_normal_task_core env s t with
  | none => rw [hc] at h; cases h
  | some s₂ =>
    rw [hc] at h
    cases h
    rfl

theorem apply_normal_tasks_log (env : MidiEnv) (s : RealTimeProcessor)
    (ts : List NormalRealTimeTask) (s₁ : RealTimeProcessor)
    (h : apply_normal_tasks env s ts = some s₁) :
    s₁.processed_normal_log = s.processed_normal_log ++ ts := by
  induction ts generalizing s with
  | nil =>
    unfold apply_normal_tasks at h
    cases h
    simp
  | cons t rest ih =>
    unfold apply_normal_tasks at h
    cases ht : apply_normal_task env s t with
    | none => rw [ht] at h; cases h
    | some s₂ =>
      rw [ht] at h
      rw [ih _ h, apply_normal_task_log env s t s₂ ht]
      simp

/-- One `idle` cycle: the drained normal tasks are exactly the FIFO prefix
of the queue up to the bulk budget, appended to the processed log in order;
the remainder stays queued. -/
theorem idle_normal_tasks_spec (env : MidiEnv) (s : RealTimeProcessor)
    (sample_count : Nat) (now_playing : Bool)
    (device_events : List (Nat × RawShortMessage))
    (nq : List NormalRealTimeTask) (fq : List FeedbackRealTimeTask)
    (r : RealTimeProcessor × List NormalRealTimeTask × List FeedbackRealTimeTask)
    (h : idle env s sample_count now_playing device_events nq fq = some r) :
    r.1.processed_normal_log = s.processed_normal_log ++ nq.take NORMAL_BULK_SIZE ∧
    r.2.1 = nq.drop NORMAL_BULK_SIZE ∧
    r.2.2 = fq.drop FEEDBACK_BULK_SIZE := by
  simp only [idle] at h
  cases ha : apply_normal_tasks env
      { s with midi_clock_calculator :=
        env.clock_increase s.midi_clock_calculator sample_count }
      (nq.take NORMAL_BULK_SIZE) with
  | none => rw [ha] at h; cases h
  | some s₁ =>
    rw [ha] at h
    have hlog := apply_normal_tasks_log env _ _ _ ha
    cases h
    refine ⟨?_, rfl, rfl⟩
    try dsimp only
    repeat' split
    all_goals simp [hlog]

/-- Iterated `idle` cycles drain the whole queue once enough cycles have
run: every task is applied exactly once, in submission order. -/
theorem run_idle_cycles_spec (env : MidiEnv) (inputs : List IdleInput)
    (s : RealTimeProcessor) (nq : List NormalRealTimeTask)
    (fq : List FeedbackRealTimeTask)
    (r : RealTimeProcessor × List NormalRealTimeTask × List FeedbackRealTimeTask)
    (h : run_idle_cycles env s nq fq inputs = some r)
    (hn : nq.length ≤ NORMAL_BULK_SIZE * inputs.length) :
    r.1.processed_normal_log = s.processed_normal_log ++ nq ∧ r.2.1 = [] := by
  induction inputs generalizing s nq fq with
  | nil =>
    unfold run_idle_cycles at h
    cases h
    have : nq = [] := List.length_eq_zero.mp (Nat.le_zero.mp (by simpa using hn))
    subst this
    simp
  | cons inp rest ih =>
    unfold run_idle_cycles at h
    cases hidle : idle env s inp.sample_count inp.now_playing inp.device_events nq fq with
    | none => rw [hidle] at h; cases h
    | some r₁ =>
      rw [hidle] at h
      obtain ⟨hlog, hnq, _⟩ := idle_normal_tasks_spec env s _ _ _ _ _ _ hidle
      have hlen : r₁.2.1.length ≤ NORMAL_BULK_SIZE * rest.length := by
        rw [hnq, List.length_drop]
        have : nq.length ≤ NORMAL_BULK_SIZE * rest.length + NORMAL_BULK_SIZE := by
          simpa [Nat.mul_succ] using hn
        omega
      obtain ⟨hfin, hempty⟩ := ih r₁.1 r₁.2.1 r₁.2.2 h hlen
      refine ⟨?_, hempty⟩
      rw [hfin, hlog, hnq, List.append_assoc, List.take_append_drop]

/-- C1 (confirmed): each idle cycle applies at most `NORMAL_BULK_SIZE`
(100) normal tasks, namely the FIFO prefix of the queue, and leaves the
remainder queued; across enough cycles every submitted task is applied
exactly once, in submission order, and none is dropped. -/
theorem normal_task_budget_fifo_no_loss :
    (∀ (env : MidiEnv) (s : RealTimeProcessor) (sample_count : Nat)
      (now_playing : Bool) (device_events : List (Nat × RawShortMessage))
      (nq : List NormalRealTimeTask) (fq : List FeedbackRealTimeTask)
      (r : RealTimeProcessor × List NormalRealTimeTask × List FeedbackRealTimeTask),
      idle env s sample_count now_playing device_events nq fq = some r →
      r.1.processed_normal_log = s.processed_normal_log ++ nq.take NORMAL_BULK_SIZE ∧
      (nq.take NORMAL_BULK_SIZE).length ≤ NORMAL_BULK_SIZE ∧
      r.2.1 = nq.drop NORMAL_BULK_SIZE ∧
      nq.take NORMAL_BULK_SIZE ++ nq.drop NORMAL_BULK_SIZE = nq) ∧
    (∀ (env : MidiEnv) (inputs : List IdleInput) (s : RealTimeProcessor)
      (nq : List NormalRealTimeTask) (fq : List FeedbackRealTimeTask)
      (r : RealTimeProcessor × List NormalRealTimeTask × List FeedbackRealTimeTask),
      run_idle_cycles env s nq fq inputs = some r →
      nq.length ≤ NORMAL_BULK_SIZE * inputs.length →
      r.1.processed_normal_log = s.processed_normal_log ++ nq ∧ r.2.1 = []) := by
  constructor
  · intro env s sample_count now_playing device_events nq fq r h
    obtain ⟨h1, h2, _⟩ := idle_normal_tasks_spec env s sample_count now_playing
      device_events nq fq r h
    exact ⟨h1, List.length_take_le _ _, h2, List.take_append_drop _ _⟩
  · intro env inputs s nq fq r h hn
    exact run_idle_cycles_spec env inputs s nq fq r h hn

/-- The state after one cycle that applies the single `LogDebugInfo` task. -/
def s_rt0_logged : RealTimeProcessor :=
  { s_rt0 with processed_normal_log := [NormalRealTimeTask.LogDebugInfo] }

/-- C1 witness: a one-task queue drained in one concrete cycle. -/
theorem normal_task_budget_fifo_no_loss_witness :
    (idle trivial_midi_env s_rt0 0 false [] [NormalRealTimeTask.LogDebugInfo] []
      = some (s_rt0_logged, [], [])) ∧
    (s_rt0_logged.processed_normal_log =
        s_rt0.processed_normal_log
          ++ ([NormalRealTimeTask.LogDebugInfo].take NORMAL_BULK_SIZE) ∧
      (([NormalRealTimeTask.LogDebugInfo] :
        List NormalRealTimeTask).take NORMAL_BULK_SIZE).length ≤ NORMAL_BULK_SIZE ∧
      ([] : List NormalRealTimeTask)
        = [NormalRealTimeTask.LogDebugInfo].drop NORMAL_BULK_SIZE ∧
      [NormalRealTimeTask.LogDebugInfo].take NORMAL_BULK_SIZE
          ++ [NormalRealTimeTask.LogDebugInfo].drop NORMAL_BULK_SIZE
        = [NormalRealTimeTask.LogDebugInfo]) ∧
    (run_idle_cycles trivial_midi_env s_rt0 [NormalRealTimeTask.LogDebugInfo] []
      [⟨0, false, []⟩] = some (s_rt0_logged, [], [])) ∧
    (s_rt0_logged.processed_normal_log =
        s_rt0.processed_normal_log ++ [NormalRealTimeTask.LogDebugInfo] ∧
      ([] : List NormalRealTimeTask) = []) :=
  ⟨rfl,
   normal_task_budget_fifo_no_loss.1 trivial_midi_env s_rt0 0 false []
     [NormalRealTimeTask.LogDebugInfo] [] (s_rt0_logged, [], []) rfl,
   rfl,
   normal_task_budget_fifo_no_loss.2 trivial_midi_env [⟨0, false, []⟩] s_rt0
     [NormalRealTimeTask.LogDebugInfo] [] (s_rt0_logged, [], []) rfl (by decide)⟩

/-- The message types dispatched to `process_incoming_midi_normal`
(channel voice messages plus Start/Continue/Stop). -/
def ShortMessageType.is_normal_dispatch : ShortMessageType → Bool
  | ShortMessageType.NoteOff => true
  | ShortMessageType.NoteOn => true
  | ShortMessageType.PolyphonicKeyPressure => true
  | ShortMessageType.ControlChange => true
  | ShortMessageType.ProgramChange => true
  | ShortMessageType.ChannelPressure => true
  | ShortMessageType.PitchBendChange => true
  | ShortMessageType.Start => true
  | ShortMessageType.Continue => true
  | ShortMessageType.Stop => true
  | _ => false

@[simp]
theorem feed_source_scanner_control_state (env : MidiEnv)
    (s : RealTimeProcessor) (v : MidiSourceValue) :
    (feed_source_scanner env s v).control_state = s.control_state := by
  simp only [feed_source_scanner]
  cases (env.source_scanner_feed s.source_scanner v).2 <;> rfl

@[simp]
theorem feed_source_scanner_sent_control (env : MidiEnv)
    (s : RealTimeProcessor) (v : MidiSourceValue) :
    (feed_source_scanner env s v).sent_control_main = s.sent_control_main := by
  simp only [feed_source_scanner]
  cases (env.source_scanner_feed s.source_scanner v).2 <;> rfl

@[simp]
theorem feed_source_scanner_forwarded (env : MidiEnv)
    (s : RealTimeProcessor) (v : MidiSourceValue) :
    (feed_source_scanner env s v).forwarded_midi = s.forwarded_midi := by
  simp only [feed_source_scanner]
  cases (env.source_scanner_feed s.source_scanner v).2 <;> rfl

@[simp]
theorem feed_source_scanner_cc14 (env : MidiEnv)
    (s : RealTimeProcessor) (v : MidiSourceValue) :
    (feed_source_scanner env s v).cc_14_bit_scanner = s.cc_14_bit_scanner := by
  simp only [feed_source_scanner]
  cases (env.source_scanner_feed s.source_scanner v).2 <;> rfl

@[simp]
theorem feed_source_scanner_fed (env : MidiEnv)
    (s : RealTimeProcessor) (v : MidiSourceValue) :
    (feed_source_scanner env s v).fed_to_source_scanner
      = s.fed_to_source_scanner ++ [v] := by
  simp only [feed_source_scanner]
  cases (env.source_scanner_feed s.source_scanner v).2 <;> rfl

theorem nrpn_learning_reduction (env : MidiEnv) (s : RealTimeProcessor)
    (msg : ParameterNumberMessage)
    (h : s.control_state = ControlState.LearningSource) :
    process_incoming_midi_normal_nrpn env s msg
      = feed_source_scanner env s (MidiSourceValue.ParameterNumber msg) := by
  simp only [process_incoming_midi_normal_nrpn, h]

theorem cc14_learning_reduction (env : MidiEnv) (s : RealTimeProcessor)
    (msg : ControlChange14BitMessage)
    (h : s.control_state = ControlState.LearningSource) :
    process_incoming_midi_normal_cc14 env s msg
      = feed_source_scanner env s (MidiSourceValue.ControlChange14Bit msg) := by
  simp only [process_incoming_midi_normal_cc14, h]

theorem plain_learning_reduction (env : MidiEnv) (s : RealTimeProcessor)
    (msg : RawShortMessage)
    (h : s.control_state = ControlState.LearningSource) :
    process_incoming_midi_normal_plain env s msg
      = feed_source_scanner env s (MidiSourceValue.Plain msg) := by
  simp only [process_incoming_midi_normal_plain, h]

/-- In learning mode a normal-class message is handled purely by the source
scanner: no control events, no forwarding, and all values derived from the
message (completed NRPN, completed 14-bit CC, the plain message) are fed to
the scanner in that order. -/
theorem process_incoming_midi_normal_learning (env : MidiEnv)
    (s : RealTimeProcessor) (msg : RawShortMessage)
    (h : s.control_state = ControlState.LearningSource) :
    (process_incoming_midi_normal env s msg).sent_control_main
        = s.sent_control_main ∧
    (process_incoming_midi_normal env s msg).forwarded_midi
        = s.forwarded_midi ∧
    (process_incoming_midi_normal env s msg).control_state
        = ControlState.LearningSource ∧
    (process_incoming_midi_normal env s msg).fed_to_source_scanner
        = s.fed_to_source_scanner
          ++ ((env.nrpn_feed s.nrpn_scanner msg).2.map
              MidiSourceValue.ParameterNumber).toList
          ++ ((env.cc14_feed s.cc_14_bit_scanner msg).2.map
              MidiSourceValue.ControlChange14Bit).toList
          ++ [MidiSourceValue.Plain msg] := by
  simp only [process_incoming_midi_normal]
  cases hn : (env.nrpn_feed s.nrpn_scanner msg).2 with
  | none =>
    try dsimp only
    cases hc : (env.cc14_feed s.cc_14_bit_scanner msg).2 with
    | none =>
      try dsimp only
      rw [plain_learning_reduction env _ msg (by simp [h])]
      simp [h, hn, hc]
    | some cc =>
      try dsimp only
      rw [cc14_learning_reduction env _ cc (by simp [h])]
      rw [plain_learning_reduction env _ msg (by simp [h])]
      simp [h, hn, hc]
  | some pn =>
    try dsimp only
    rw [nrpn_learning_reduction env _ pn (by simp [h])]
    simp only [feed_source_scanner_cc14]
    try dsimp only
    cases hc : (env.cc14_feed s.cc_14_bit_scanner msg).2 with
    | none =>
      try dsimp only
      rw [plain_learning_reduction env _ msg (by simp [h])]
      simp [h, hn, hc]
    | some cc =>
      try dsimp only
      rw [cc14_learning_reduction env _ cc (by simp [h])]
      rw [plain_learning_reduction env _ msg (by simp [h])]
      simp [h, hn, hc]

/-- A state in `LearningSource` mode with FX input and unmatched
pass-through enabled. -/
def s_learning : RealTimeProcessor :=
  { s_rt0 with
    control_state := ControlState.LearningSource
    let_unmatched_events_through := true }

/-- C4 counterexample: while in `LearningSource`, an incoming Active
Sensing (system-common-class) message is still forwarded to the host
output via the unmatched path — forwarding is not fully suspended. -/
theorem learning_source_forwarding_cx :
    s_learning.control_state = ControlState.LearningSource ∧
    (process_incoming_midi trivial_midi_env s_learning 0
        ⟨ShortMessageType.ActiveSensing, 0⟩).forwarded_midi
      = [⟨ShortMessageType.ActiveSensing, 0⟩] :=
  ⟨rfl, rfl⟩

/-- C4 (amended): in `LearningSource` state, every incoming normal-class
message (channel voice, Start, Continue, Stop) is handled exclusively by
the source scanner: each derived source value (completed NRPN message,
completed 14-bit CC message, plain message) is fed to the scanner, no
control event is enqueued to the coordination tier, no raw bytes are
forwarded, and the state stays `LearningSource`. Messages outside this
class are exempt: system-common messages are still forwarded per the
unmatched-events flag and timing-clock messages still take the tempo
control path. -/
theorem learning_source_suspends_matching (env : MidiEnv)
    (s : RealTimeProcessor) (frame_offset : Nat) (msg : RawShortMessage)
    (h1 : s.control_state = ControlState.LearningSource)
    (h2 : msg.msg_type.is_normal_dispatch = true) :
    (process_incoming_midi env s frame_offset msg).sent_control_main
        = s.sent_control_main ∧
    (process_incoming_midi env s frame_offset msg).forwarded_midi
        = s.forwarded_midi ∧
    (process_incoming_midi env s frame_offset msg).control_state
        = ControlState.LearningSource ∧
    (process_incoming_midi env s frame_offset msg).fed_to_source_scanner
        = s.fed_to_source_scanner
          ++ ((env.nrpn_feed s.nrpn_scanner msg).2.map
              MidiSourceValue.ParameterNumber).toList
          ++ ((env.cc14_feed s.cc_14_bit_scanner msg).2.map
              MidiSourceValue.ControlChange14Bit).toList
          ++ [MidiSourceValue.Plain msg] := by
  obtain ⟨mt, payload⟩ := msg
  cases mt <;>
    first
      | exact process_incoming_midi_normal_learning env s _ h1
      | simp [ShortMessageType.is_normal_dispatch] at h2

/-- An environment whose NRPN scanner completes a message on every feed. -/
def nrpn_completing_env : MidiEnv :=
  { trivial_midi_env with nrpn_feed := fun st _ => (st, some 42) }

/-- C4 witness: a concrete CC message in learning mode feeds the completed
NRPN value and the plain value to the source scanner, with no control
events and no forwarding. -/
theorem learning_source_suspends_matching_witness :
    s_learning.control_state = ControlState.LearningSource ∧
    (ShortMessageType.ControlChange.is_normal_dispatch = true) ∧
    ((process_incoming_midi nrpn_completing_env s_learning 0
        ⟨ShortMessageType.ControlChange, 5⟩).sent_control_main
      = s_learning.sent_control_main ∧
    (process_incoming_midi nrpn_completing_env s_learning 0
        ⟨ShortMessageType.ControlChange, 5⟩).forwarded_midi
      = s_learning.forwarded_midi ∧
    (process_incoming_midi nrpn_completing_env s_learning 0
        ⟨ShortMessageType.ControlChange, 5⟩).control_state
      = ControlState.LearningSource ∧
    (process_incoming_midi nrpn_completing_env s_learning 0
        ⟨ShortMessageType.ControlChange, 5⟩).fed_to_source_scanner
      = s_learning.fed_to_source_scanner
        ++ ((nrpn_completing_env.nrpn_feed s_learning.nrpn_scanner
            ⟨ShortMessageType.ControlChange, 5⟩).2.map
            MidiSourceValue.ParameterNumber).toList
        ++ ((nrpn_completing_env.cc14_feed s_learning.cc_14_bit_scanner
            ⟨ShortMessageType.ControlChange, 5⟩).2.map
            MidiSourceValue.ControlChange14Bit).toList
        ++ [MidiSourceValue.Plain ⟨ShortMessageType.ControlChange, 5⟩]) :=
  ⟨rfl, rfl,
    learning_source_suspends_matching nrpn_completing_env s_learning 0
      ⟨ShortMessageType.ControlChange, 5⟩ rfl rfl⟩

end Realearn
